import Mathlib

/-!
# Verification of the milaidy self-update subsystem

Shallow embedding of `src/services/update-checker.ts` and
`src/services/self-updater.ts` (repository Agent-Town/milaidy).

IO boundaries (clock, environment variable, HTTP fetch, config load/save,
child-process spawn) are modelled as explicit parameters; machine numbers
are `Int`/`Nat` with exact arithmetic. JS string operations (`trim`,
`toLowerCase`, `includes`, `startsWith`) are embedded on Lean `String`s;
`toLowerCase` is embedded on the ASCII range, which is the range all
comparisons in the embedded code actually inspect.
-/

namespace Milaidy

/-! ## JS string primitives -/

/-- The ECMAScript `WhiteSpace` ∪ `LineTerminator` set recognised by
`String.prototype.trim` (ASCII part plus the common Unicode space points). -/
def isJsWhitespace (c : Char) : Bool :=
  c.val = 0x09 || c.val = 0x0A || c.val = 0x0B || c.val = 0x0C || c.val = 0x0D ||
  c.val = 0x20 || c.val = 0xA0 || c.val = 0x1680 ||
  (0x2000 ≤ c.val && c.val ≤ 0x200A) ||
  c.val = 0x2028 || c.val = 0x2029 || c.val = 0x202F || c.val = 0x205F ||
  c.val = 0x3000 || c.val = 0xFEFF

/-- JS `String.prototype.trim`. -/
def jsTrim (s : String) : String :=
  ⟨(((s.data.dropWhile isJsWhitespace).reverse.dropWhile isJsWhitespace).reverse)⟩

/-- JS `String.prototype.toLowerCase`, embedded on the ASCII letters (all
characters the embedded code compares against are ASCII). -/
def jsToLowerChar (c : Char) : Char :=
  if 'A' ≤ c && c ≤ 'Z' then Char.ofNat (c.toNat + 32) else c

/-- Character-wise lower-casing of a string. -/
def jsToLower (s : String) : String := ⟨s.data.map jsToLowerChar⟩

/-- JS `String.prototype.includes(pat)`: `pat` occurs as a contiguous
substring of `s`. -/
def strContains (s pat : String) : Bool :=
  (List.range (s.data.length + 1)).any
    (fun i => decide ((s.data.drop i).take pat.data.length = pat.data))

/-- JS `String.prototype.startsWith(pat)`. -/
def strStartsWith (s pat : String) : Bool :=
  decide (s.data.take pat.data.length = pat.data)

/-! ## Release channels and dist-tags

`ReleaseChannel` and `CHANNEL_DIST_TAGS` live in `src/config/types.milaidy.ts`,
which is not in the source tree. -/

/-- The closed channel enumeration {stable, beta, nightly} (spec §3). -/
inductive ReleaseChannel where
  | stable
  | beta
  | nightly
deriving DecidableEq, Repr

/-- The literal channel name, as the TS string union value. -/
def ReleaseChannel.name : ReleaseChannel → String
  | .stable => "stable"
  | .beta => "beta"
  | .nightly => "nightly"

/-- Modelled from the spec: `CHANNEL_DIST_TAGS` of `src/config/types.milaidy.ts`
is not in the source tree; spec §3 says channels map 1:1 to registry
distribution tags {latest, beta, nightly}, pinned by the repository tests. -/
def CHANNEL_DIST_TAGS : ReleaseChannel → String
  | .stable => "latest"
  | .beta => "beta"
  | .nightly => "nightly"

/-! ## VersionComparator (spec §4.1) -/

/-- Is `c` an ASCII decimal digit? -/
def isDigitChar (c : Char) : Bool := '0' ≤ c && c ≤ '9'

/-- Is every character of `s` a digit, with `s` nonempty? -/
def isNumericField (s : String) : Bool :=
  !s.data.isEmpty && s.data.all isDigitChar

/-- Decimal value of a digit list. -/
def digitsToNat (l : List Char) : Nat :=
  l.foldl (fun acc c => acc * 10 + (c.toNat - '0'.toNat)) 0

/-- Split a character list on a separator (JS `String.prototype.split(sep)`
semantics: `n` separators yield `n+1` pieces, empty pieces included). -/
def splitOnChar (sep : Char) : List Char → List (List Char)
  | [] => [[]]
  | c :: rest =>
      let r := splitOnChar sep rest
      if c = sep then [] :: r
      else
        match r with
        | [] => [[c]]
        | h :: t => (c :: h) :: t

/-- A parsed version: major, minor, patch, optional prerelease field list. -/
structure ParsedVer where
  major : Nat
  minor : Nat
  patch : Nat
  prerelease : Option (List String)
deriving DecidableEq, Repr

/-- Modelled from the spec: `compareSemver`'s parser
(`src/services/version-compat.ts` is not in the source tree). Spec §4.1:
dot-separated numeric major.minor.patch with an optional `-<prerelease>`
suffix; prerelease is a dot-separated field list. -/
def parseVer (s : String) : Option ParsedVer :=
  let core := s.data.takeWhile (· ≠ '-')
  let rest := s.data.dropWhile (· ≠ '-')
  let pre : Option (List String) :=
    match rest with
    | [] => none
    | _ :: r => some ((splitOnChar '.' r).map String.mk)
  match (splitOnChar '.' core).map String.mk with
  | [a, b, c] =>
      if isNumericField a && isNumericField b && isNumericField c then
        some ⟨digitsToNat a.data, digitsToNat b.data, digitsToNat c.data, pre⟩
      else none
  | _ => none

/-- Three-way comparison of naturals as the TS `-1/0/1` convention. -/
def cmpNat (a b : Nat) : Int := if a < b then -1 else if a = b then 0 else 1

/-- Lexicographic three-way comparison of character lists (code-point order,
the JS `<`/`>` ordering on strings). -/
def cmpChars : List Char → List Char → Int
  | [], [] => 0
  | [], _ :: _ => -1
  | _ :: _, [] => 1
  | a :: as, b :: bs =>
      if a < b then -1 else if b < a then 1 else cmpChars as bs

/-- Lexical three-way comparison of strings (code-point order). -/
def cmpString (a b : String) : Int := cmpChars a.data b.data

/-- Modelled from the spec: one prerelease field comparison — numeric fields
compared numerically, non-numeric fields compared lexically (§4.1). -/
def cmpField (a b : String) : Int :=
  if isNumericField a && isNumericField b then
    cmpNat (digitsToNat a.data) (digitsToNat b.data)
  else cmpString a b

/-- Modelled from the spec: prerelease field-list comparison — shorter
prefix-sharing field lists sort lower (§4.1). -/
def cmpFields : List String → List String → Int
  | [], [] => 0
  | [], _ :: _ => -1
  | _ :: _, [] => 1
  | a :: as, b :: bs =>
      let c := cmpField a b
      if c = 0 then cmpFields as bs else c

/-- Modelled from the spec: comparison of two parsed versions (§4.1): compare
major, minor, patch numerically; a version with no prerelease suffix is
greater than the same core with one; otherwise compare prerelease fields. -/
def cmpParsed (a b : ParsedVer) : Int :=
  let cM := cmpNat a.major b.major
  if cM ≠ 0 then cM else
  let cm := cmpNat a.minor b.minor
  if cm ≠ 0 then cm else
  let cp := cmpNat a.patch b.patch
  if cp ≠ 0 then cp else
  match a.prerelease, b.prerelease with
  | none, none => 0
  | none, some _ => 1
  | some _, none => -1
  | some fa, some fb => cmpFields fa fb

/-- Modelled from the spec: `compareSemver(a, b) -> {-1, 0, 1, null}` of
`src/services/version-compat.ts` (not in the source tree), per §4.1: null
when either string is not parseable as a version. -/
def compareSemver (a b : String) : Option Int :=
  match parseVer a, parseVer b with
  | some va, some vb => some (cmpParsed va vb)
  | _, _ => none

/-! ## Update checker: configuration and result types
(src/services/update-checker.ts) -/

/-- The persisted `update` section of the user config
(`UpdateConfig` of `src/config/types.milaidy.ts`, fields per spec §3 and the
accesses in `update-checker.ts`). -/
structure UpdateConfig where
  channel : Option ReleaseChannel := none
  lastCheckAt : Option String := none
  lastCheckVersion : Option String := none
  checkIntervalSeconds : Option Int := none
deriving DecidableEq, Repr

/-- The whole persisted config: the `update` section plus all unrelated
fields, modelled opaquely so "merged without discarding unrelated fields" is
expressible. -/
structure MilaidyConfig where
  update : Option UpdateConfig := none
  rest : List (String × String) := []
deriving DecidableEq, Repr

/-- `UpdateCheckResult` of update-checker.ts. -/
structure UpdateCheckResult where
  updateAvailable : Bool
  currentVersion : String
  latestVersion : Option String
  channel : ReleaseChannel
  distTag : String
  cached : Bool
  error : Option String
deriving DecidableEq, Repr

/-- Default minimum seconds between registry checks
(`DEFAULT_CHECK_INTERVAL_SECONDS`). -/
def DEFAULT_CHECK_INTERVAL_SECONDS : Int := 14400

/-- HTTP timeout for registry requests in milliseconds
(`REGISTRY_TIMEOUT_MS`). -/
def REGISTRY_TIMEOUT_MS : Nat := 8000

/-! ## Registry client (`fetchDistTags`) -/

/-- Outcome of the single registry GET, as seen by `fetchDistTags`: the
abort-timer firing (after `REGISTRY_TIMEOUT_MS`), a transport error
(`fetch` rejecting), or a response with its `ok` flag and body — `none` body
models `response.json()` throwing on a malformed JSON body, and a parsed
body carries the optional `dist-tags` object as an association list. -/
inductive RegistryOutcome where
  | timeout
  | transportError
  | response (ok : Bool) (body : Option (Option (List (String × String))))
deriving DecidableEq, Repr

/-- `fetchDistTags` of update-checker.ts: returns the `dist-tags` map or
null; timeouts, rejections, non-2xx responses and malformed bodies all land
in the `catch`/early-return and yield null — the function never throws. -/
def fetchDistTags : RegistryOutcome → Option (List (String × String))
  | .timeout => none
  | .transportError => none
  | .response ok body =>
      if !ok then none
      else
        match body with
        | none => none
        | some distTags => distTags

/-- JS object property lookup `obj[key]` on the modelled `dist-tags`
association list (first binding wins; JS object keys are unique). -/
def jsLookup (l : List (String × String)) (key : String) : Option String :=
  match l.find? (fun p => p.1 = key) with
  | some p => some p.2
  | none => none

/-! ## Interval gating (`shouldSkipCheck`) -/

/-- `shouldSkipCheck` of update-checker.ts. `dateParse` models
`new Date(s).getTime()`: `some t` is an epoch-millisecond value, `none` is
`NaN` (every comparison against `NaN` is false, so the gate never fires).
`now` is `Date.now()` in ms. The JS test `elapsedMs / 1000 <
intervalSeconds` is embedded exactly as `elapsedMs < intervalSeconds * 1000`
(the two are equivalent over exact arithmetic). The leading JS truthiness
test `!updateConfig?.lastCheckAt` makes both a missing and an empty-string
`lastCheckAt` return false. -/
def shouldSkipCheck (dateParse : String → Option Int) (now : Int)
    (updateConfig : Option UpdateConfig) : Bool :=
  match updateConfig with
  | none => false
  | some uc =>
      match uc.lastCheckAt with
      | none => false
      | some s =>
          if s = "" then false
          else
            let intervalSeconds := uc.checkIntervalSeconds.getD DEFAULT_CHECK_INTERVAL_SECONDS
            match dateParse s with
            | none => false
            | some t => now - t < intervalSeconds * 1000

/-! ## Channel resolution (`resolveChannel`) -/

/-- `resolveChannel` of update-checker.ts. `env` models
`process.env.MILAIDY_UPDATE_CHANNEL` (`none` = unset). -/
def resolveChannel (env : Option String) (updateConfig : Option UpdateConfig) :
    ReleaseChannel :=
  let envChannel := env.map (fun s => jsToLower (jsTrim s))
  if envChannel = some "stable" then .stable
  else if envChannel = some "beta" then .beta
  else if envChannel = some "nightly" then .nightly
  else (updateConfig.bind (·.channel)).getD .stable

/-! ## `checkForUpdate` -/

/-- What one `checkForUpdate` call did: the returned result, the config it
passed to `saveMilaidyConfig` (`none` when no save was attempted), and
whether the registry fetch was performed. -/
structure CheckOutcome where
  result : UpdateCheckResult
  savedConfig : Option MilaidyConfig
  networkUsed : Bool
  /-- Holds `some b` when `saveMilaidyConfig` was attempted, `b` saying
  whether it succeeded; its failure is caught by the try/catch, so control
  always reaches the same return and no other field can depend on it. -/
  saveSucceeded : Option Bool
deriving DecidableEq, Repr

/-- The error message of the network-failure branch. -/
def networkErrorMsg : String :=
  "Unable to reach the npm registry. Check your network connection."

/-- The error message of the missing-dist-tag branch. -/
def noVersionErrorMsg (distTag : String) (channel : ReleaseChannel) : String :=
  "No version found for dist-tag \x22" ++ distTag ++ "\x22. The \x22" ++
    channel.name ++ "\x22 channel may not have any published releases yet."

/-- `checkForUpdate` of update-checker.ts as a pure function of its IO
environment: `version` is `VERSION`, `env` the channel override variable,
`dateParse` the JS date parser, `now`/`nowIso` are `Date.now()` and
`new Date().toISOString()` for the call's instant, `cfg` is what
`loadMilaidyConfig()` returns, `reg` the registry interaction, and
`saveOk` whether `saveMilaidyConfig` succeeds (its failure is swallowed,
so the function's output does not mention it). The cached branch's
`updateConfig?.lastCheckVersion ? … : false` truthiness test makes an
empty-string `lastCheckVersion` count as absent for `updateAvailable`,
while `?? null` keeps it in `latestVersion`. -/
def checkForUpdate (version : String) (env : Option String)
    (dateParse : String → Option Int) (now : Int) (nowIso : String)
    (cfg : MilaidyConfig) (force : Bool) (reg : RegistryOutcome)
    (saveOk : Bool) : CheckOutcome :=
  let updateConfig := cfg.update
  let channel := resolveChannel env updateConfig
  let distTag := CHANNEL_DIST_TAGS channel
  if !force && shouldSkipCheck dateParse now updateConfig then
    { result :=
        { updateAvailable :=
            match updateConfig.bind (·.lastCheckVersion) with
            | some v => if v ≠ "" then ((compareSemver version v).getD 0) < 0 else false
            | none => false
          currentVersion := version
          latestVersion := updateConfig.bind (·.lastCheckVersion)
          channel := channel
          distTag := distTag
          cached := true
          error := none }
      savedConfig := none
      networkUsed := false
      saveSucceeded := none }
  else
    match fetchDistTags reg with
    | none =>
        { result :=
            { updateAvailable := false
              currentVersion := version
              latestVersion := none
              channel := channel
              distTag := distTag
              cached := false
              error := some networkErrorMsg }
          savedConfig := none
          networkUsed := true
          saveSucceeded := none }
    | some distTags =>
        match jsLookup distTags distTag with
        | none =>
            { result :=
                { updateAvailable := false
                  currentVersion := version
                  latestVersion := none
                  channel := channel
                  distTag := distTag
                  cached := false
                  error := some (noVersionErrorMsg distTag channel) }
              savedConfig := none
              networkUsed := true
              saveSucceeded := none }
        | some latestVersion =>
            if latestVersion = "" then
              { result :=
                  { updateAvailable := false
                    currentVersion := version
                    latestVersion := none
                    channel := channel
                    distTag := distTag
                    cached := false
                    error := some (noVersionErrorMsg distTag channel) }
                savedConfig := none
                networkUsed := true
                saveSucceeded := none }
            else
              let cmp := compareSemver version latestVersion
              let updateAvailable : Bool :=
                match cmp with
                | none => false
                | some c => c < 0
              let updatedConfig : MilaidyConfig :=
                { cfg with
                    update := some
                      { channel := updateConfig.bind (·.channel)
                        checkIntervalSeconds := updateConfig.bind (·.checkIntervalSeconds)
                        lastCheckAt := some nowIso
                        lastCheckVersion := some latestVersion } }
              { result :=
                  { updateAvailable := updateAvailable
                    currentVersion := version
                    latestVersion := some latestVersion
                    channel := channel
                    distTag := distTag
                    cached := false
                    error := none }
                savedConfig := some updatedConfig
                networkUsed := true
                saveSucceeded := some saveOk }

/-- `fetchAllChannelVersions` of update-checker.ts. -/
def fetchAllChannelVersions (reg : RegistryOutcome) :
    Option String × Option String × Option String :=
  let distTags := fetchDistTags reg
  ( distTags.bind (jsLookup · "latest")
  , distTags.bind (jsLookup · "beta")
  , distTags.bind (jsLookup · "nightly") )

/-! ## Self-updater: install method detection (src/services/self-updater.ts) -/

/-- `InstallMethod` of self-updater.ts. -/
inductive InstallMethod where
  | npmGlobal
  | bunGlobal
  | pnpmGlobal
  | homebrew
  | snap
  | apt
  | flatpak
  | localDev
  | unknown
deriving DecidableEq, Repr

/-- `isInsideNodeModules` of self-updater.ts. -/
def isInsideNodeModules (filePath : String) : Bool :=
  strContains filePath "node_modules"

/-- `isInsideHomebrew` of self-updater.ts. -/
def isInsideHomebrew (filePath : String) : Bool :=
  strContains filePath "/Cellar/" || strContains filePath "/homebrew/"

/-- `isInsideSnap` of self-updater.ts. -/
def isInsideSnap (filePath : String) : Bool :=
  strContains filePath "/snap/"

/-- `isInsideFlatpak` of self-updater.ts. -/
def isInsideFlatpak (filePath : String) : Bool :=
  strContains filePath "/flatpak/" || strContains filePath "ai.milady.Milaidy"

/-- The path-classification decision list of `detectInstallMethod`
(self-updater.ts, the part after `which`/`realpathSync` resolution), applied
to the symlink-resolved binary path. -/
def classifyResolvedPath (resolved : String) : InstallMethod :=
  if isInsideHomebrew resolved then .homebrew
  else if isInsideSnap resolved then .snap
  else if isInsideFlatpak resolved then .flatpak
  else if strStartsWith resolved "/usr/" && !isInsideNodeModules resolved then .apt
  else if strContains resolved "/.bun/" then .bunGlobal
  else if strContains resolved "/pnpm/" then .pnpmGlobal
  else if isInsideNodeModules resolved then .npmGlobal
  else .unknown

/-- `detectInstallMethod` of self-updater.ts as a function of its IO reads:
`whichResult` is `whichSync("milaidy")` (`none` = not found / `which`
failed), `realpath` is `fs.realpathSync` (`none` = it threw, falling back to
the unresolved path), `localDev` is `isLocalDev()` (whether the package
manifest reachable from the module declares `devDependencies`). -/
def detectInstallMethod (whichResult : Option String)
    (realpath : String → Option String) (localDev : Bool) : InstallMethod :=
  match whichResult with
  | none => if localDev then .localDev else .unknown
  | some milaidyBin =>
      let resolved := (realpath milaidyBin).getD milaidyBin
      classifyResolvedPath resolved

/-! ## Self-updater: update command construction -/

/-- `buildUpdateCommand` of self-updater.ts: the command and argument list
for an install method and channel, or `none` for local-dev installs. -/
def buildUpdateCommand (method : InstallMethod) (channel : ReleaseChannel) :
    Option (String × List String) :=
  let distTag := CHANNEL_DIST_TAGS channel
  let spec := if channel = .stable then "milaidy@latest" else "milaidy@" ++ distTag
  match method with
  | .npmGlobal => some ("npm", ["install", "-g", spec])
  | .bunGlobal => some ("bun", ["install", "-g", spec])
  | .pnpmGlobal => some ("pnpm", ["add", "-g", spec])
  | .homebrew => some ("brew", ["upgrade", "milaidy"])
  | .snap =>
      let snapChannel :=
        if channel = .nightly then "edge"
        else if channel = .beta then "beta" else "stable"
      some ("sudo", ["snap", "refresh", "milaidy", "--channel=" ++ snapChannel])
  | .apt =>
      some ("sudo", ["apt-get", "update", "&&", "sudo", "apt-get", "install",
        "--only-upgrade", "milaidy"])
  | .flatpak => some ("flatpak", ["update", "ai.milady.Milaidy"])
  | .localDev => none
  | .unknown => some ("npm", ["install", "-g", spec])

/-! ## Self-updater: command execution and verification -/

/-- How the spawned child process ended, as observed by `runCommand`:
either the `error` event fired first (spawn failure, carrying the error
message) or the `close` event fired with an exit code (`none` = no/invalid
code) after `stderr` had accumulated the captured bytes. -/
inductive SpawnOutcome where
  | spawnErr (msg : String)
  | closed (code : Option Int) (stderr : String)
deriving DecidableEq, Repr

/-- `runCommand` of self-updater.ts: resolves with the exit code and the
captured stderr; a spawn error resolves `{exitCode: 1, stderr: err.message}`
and a missing exit code maps to `code ?? 1`. -/
def runCommand : SpawnOutcome → Int × String
  | .spawnErr msg => (1, msg)
  | .closed code stderr => (code.getD 1, stderr)

/-- Is `c` a JS word character (`\w` = `[A-Za-z0-9_]`)? -/
def isWordChar (c : Char) : Bool :=
  isDigitChar c || ('a' ≤ c && c ≤ 'z') || ('A' ≤ c && c ≤ 'Z') || c = '_'

/-- Match the regex `\d+\.\d+\.\d+(?:-[\w.]+)?` at the head of `l`,
returning the matched characters. The pattern is backtracking-free: each
`\d+` is a maximal digit run that must be followed by a literal, and the
optional prerelease group either consumes `-` plus a nonempty maximal
`[\w.]+` run or matches empty. -/
def matchSemverAt (l : List Char) : Option (List Char) :=
  let d1 := l.takeWhile isDigitChar
  if d1.isEmpty then none else
  match l.drop d1.length with
  | '.' :: r1 =>
      let d2 := r1.takeWhile isDigitChar
      if d2.isEmpty then none else
      match r1.drop d2.length with
      | '.' :: r2 =>
          let d3 := r2.takeWhile isDigitChar
          if d3.isEmpty then none else
          let core := d1 ++ '.' :: d2 ++ '.' :: d3
          match r2.drop d3.length with
          | '-' :: r3 =>
              let pre := r3.takeWhile (fun c => isWordChar c || c = '.')
              if pre.isEmpty then some core else some (core ++ '-' :: pre)
          | _ => some core
      | _ => none
  | _ => none

/-- Leftmost match of the version pattern, as JS
`output.match(/(\d+\.\d+\.\d+(?:-[\w.]+)?)/)` finds it. -/
def findSemver : List Char → Option (List Char)
  | [] => none
  | l@h => match matchSemverAt l with
      | some m => some m
      | none =>
          match h with
          | [] => none
          | _ :: rest => findSemver rest

/-- `readPostUpdateVersion` of self-updater.ts as a function of the
`milaidy --version` subprocess output (`none` = `execSync` threw): trims the
output and extracts the first semantic-version-shaped substring, or null. -/
def readPostUpdateVersion (output : Option String) : Option String :=
  match output with
  | none => none
  | some raw => (findSemver (jsTrim raw).data).map String.mk

/-! ## Self-updater: `performUpdate` -/

/-- `UpdateResult` of self-updater.ts. -/
structure UpdateResult where
  success : Bool
  method : InstallMethod
  command : String
  previousVersion : String
  newVersion : Option String
  error : Option String
deriving DecidableEq, Repr

/-- `performUpdate` of self-updater.ts as a pure function of its IO
environment: `method` is what `detectInstallMethod()` returned, `spawn` the
spawned command's outcome, and `versionOutput` the `milaidy --version`
output read by `readPostUpdateVersion` (`none` = it threw). The JS
`stderr || …` truthiness picks the generic exit-code message when the
captured stderr is empty. -/
def performUpdate (currentVersion : String) (channel : ReleaseChannel)
    (method : InstallMethod) (spawn : SpawnOutcome)
    (versionOutput : Option String) : UpdateResult :=
  match buildUpdateCommand method channel with
  | none =>
      { success := false
        method := method
        command := ""
        previousVersion := currentVersion
        newVersion := none
        error := some (if method = .localDev then
            "Cannot auto-update a local development install. Use git pull instead."
          else
            "Unable to determine update command for this installation method.") }
  | some (command, args) =>
      let commandString := command ++ " " ++ String.intercalate " " args
      let (exitCode, stderr) := runCommand spawn
      if exitCode ≠ 0 then
        { success := false
          method := method
          command := commandString
          previousVersion := currentVersion
          newVersion := none
          error := some (if stderr ≠ "" then stderr
            else "Update command exited with code " ++ toString exitCode ++ ".") }
      else
        { success := true
          method := method
          command := commandString
          previousVersion := currentVersion
          newVersion := readPostUpdateVersion versionOutput
          error := none }

/-! ## Helper lemmas -/

/-- The empty string is not parseable as a version, so comparing against it
yields null. -/
theorem compareSemver_right_empty (a : String) : compareSemver a "" = none := by
  unfold compareSemver
  have h : parseVer "" = none := by decide
  rw [h]
  cases parseVer a <;> rfl

end Milaidy

namespace Milaidy

/-! ## Claim theorems -/

/-- C5: `resolveChannel` returns the environment override when, after
trimming and lower-casing, it exactly equals one of "stable", "beta",
"nightly"; otherwise it returns the config's channel field when present,
otherwise stable; any other environment value (empty, misspelled, mixed
garbage such as "  BETA  " resolving to beta and "invalid" being ignored)
falls through silently. -/
theorem C5_resolveChannel_precedence :
    (∀ s u, jsToLower (jsTrim s) = "stable" → resolveChannel (some s) u = .stable) ∧
    (∀ s u, jsToLower (jsTrim s) = "beta" → resolveChannel (some s) u = .beta) ∧
    (∀ s u, jsToLower (jsTrim s) = "nightly" → resolveChannel (some s) u = .nightly) ∧
    (∀ s u, jsToLower (jsTrim s) ≠ "stable" → jsToLower (jsTrim s) ≠ "beta" →
      jsToLower (jsTrim s) ≠ "nightly" →
      resolveChannel (some s) u = (u.bind (·.channel)).getD .stable) ∧
    (∀ u, resolveChannel none u = (u.bind (·.channel)).getD .stable) ∧
    (∀ u, resolveChannel (some "  BETA  ") u = .beta) ∧
    (∀ u, resolveChannel (some "invalid") u = (u.bind (·.channel)).getD .stable) := by
  refine ⟨?_, ?_, ?_, ?_, ?_, ?_, ?_⟩
  · intro s u h; simp [resolveChannel, h]
  · intro s u h; simp [resolveChannel, h]
  · intro s u h; simp [resolveChannel, h]
  · intro s u h1 h2 h3; simp [resolveChannel, h1, h2, h3]
  · intro u; simp [resolveChannel]
  · intro u
    have h : jsToLower (jsTrim "  BETA  ") = "beta" := by decide
    simp [resolveChannel, h]
  · intro u
    have h : jsToLower (jsTrim "invalid") = "invalid" := by decide
    simp [resolveChannel, h]

/-- Closed instantiation of C5 at concrete inputs. -/
theorem C5_resolveChannel_precedence_witness :
    resolveChannel (some " NIGHTLY ") (some { channel := some .stable }) =
      ReleaseChannel.nightly ∧
    resolveChannel (some "invalid") (some { channel := some .beta }) =
      ReleaseChannel.beta := by
  constructor
  · exact C5_resolveChannel_precedence.2.2.1 " NIGHTLY " _ (by decide)
  · exact (C5_resolveChannel_precedence.2.2.2.2.2.2
      (some { channel := some .beta })).trans (by decide)

/-- C6: the resolved binary path is classified by a fixed first-match-wins
priority order — homebrew, then snap, then flatpak, then apt (starts with
/usr/ and not inside node_modules), then bun-global, then pnpm-global, then
npm-global, else unknown; a path matching both a Homebrew marker and
node_modules classifies as homebrew, and a /usr/ path inside node_modules
classifies as npm-global rather than apt. -/
theorem C6_detect_priority_order :
    (∀ p, isInsideHomebrew p = true → classifyResolvedPath p = .homebrew) ∧
    (∀ p, isInsideHomebrew p = false → isInsideSnap p = true →
      classifyResolvedPath p = .snap) ∧
    (∀ p, isInsideHomebrew p = false → isInsideSnap p = false →
      isInsideFlatpak p = true → classifyResolvedPath p = .flatpak) ∧
    (∀ p, isInsideHomebrew p = false → isInsideSnap p = false →
      isInsideFlatpak p = false → strStartsWith p "/usr/" = true →
      isInsideNodeModules p = false → classifyResolvedPath p = .apt) ∧
    (∀ p, isInsideHomebrew p = false → isInsideSnap p = false →
      isInsideFlatpak p = false →
      (strStartsWith p "/usr/" && !isInsideNodeModules p) = false →
      strContains p "/.bun/" = true → classifyResolvedPath p = .bunGlobal) ∧
    (∀ p, isInsideHomebrew p = false → isInsideSnap p = false →
      isInsideFlatpak p = false →
      (strStartsWith p "/usr/" && !isInsideNodeModules p) = false →
      strContains p "/.bun/" = false → strContains p "/pnpm/" = true →
      classifyResolvedPath p = .pnpmGlobal) ∧
    (∀ p, isInsideHomebrew p = false → isInsideSnap p = false →
      isInsideFlatpak p = false →
      (strStartsWith p "/usr/" && !isInsideNodeModules p) = false →
      strContains p "/.bun/" = false → strContains p "/pnpm/" = false →
      isInsideNodeModules p = true → classifyResolvedPath p = .npmGlobal) ∧
    (∀ p, isInsideHomebrew p = false → isInsideSnap p = false →
      isInsideFlatpak p = false →
      (strStartsWith p "/usr/" && !isInsideNodeModules p) = false →
      strContains p "/.bun/" = false → strContains p "/pnpm/" = false →
      isInsideNodeModules p = false → classifyResolvedPath p = .unknown) ∧
    classifyResolvedPath "/usr/local/lib/node_modules/milaidy/milaidy.mjs" =
      .npmGlobal ∧
    classifyResolvedPath
      "/home/user/.bun/install/global/node_modules/milaidy/milaidy.mjs" =
      .bunGlobal ∧
    classifyResolvedPath "/opt/homebrew/Cellar/milaidy/2.0.0/bin/milaidy" =
      .homebrew ∧
    classifyResolvedPath "/snap/milaidy/current/bin/milaidy" = .snap ∧
    classifyResolvedPath "/usr/bin/milaidy" = .apt ∧
    classifyResolvedPath
      "/opt/homebrew/Cellar/milaidy/2.0.0/libexec/node_modules/milaidy/bin/m" =
      .homebrew := by
  refine ⟨?_, ?_, ?_, ?_, ?_, ?_, ?_, ?_, ?_, ?_, ?_, ?_, ?_, ?_⟩
  · intro p h; simp [classifyResolvedPath, h]
  · intro p h1 h2; simp [classifyResolvedPath, h1, h2]
  · intro p h1 h2 h3; simp [classifyResolvedPath, h1, h2, h3]
  · intro p h1 h2 h3 h4 h5; simp [classifyResolvedPath, h1, h2, h3, h4, h5]
  · intro p h1 h2 h3 h4 h5; simp [classifyResolvedPath, h1, h2, h3, h4, h5]
  · intro p h1 h2 h3 h4 h5 h6; simp [classifyResolvedPath, h1, h2, h3, h4, h5, h6]
  · intro p h1 h2 h3 h4 h5 h6 h7
    simp [classifyResolvedPath, h1, h2, h3, h4, h5, h6, h7]
  · intro p h1 h2 h3 h4 h5 h6 h7
    simp [h7] at h4
    simp [classifyResolvedPath, h1, h2, h3, h4, h5, h6, h7]
  · decide
  · decide
  · decide
  · decide
  · decide
  · decide

/-- Closed instantiation of C6 at concrete inputs: a path matching both the
Homebrew marker and node_modules is homebrew, and a /usr/ path inside
node_modules is npm-global. -/
theorem C6_detect_priority_order_witness :
    classifyResolvedPath "/usr/local/Cellar/milaidy/node_modules/milaidy/m" =
      InstallMethod.homebrew ∧
    classifyResolvedPath "/usr/lib/node_modules/milaidy/milaidy.mjs" =
      InstallMethod.npmGlobal := by
  constructor
  · exact C6_detect_priority_order.1 _ (by decide)
  · exact C6_detect_priority_order.2.2.2.2.2.2.1 _ (by decide) (by decide)
      (by decide) (by decide) (by decide) (by decide) (by decide)

/-- C7: `buildUpdateCommand` returns exactly the §4.6 table entry for every
install method and channel: snap maps channels to snap channels
(nightly→edge, beta→beta, stable→stable) rather than the registry tag,
local-dev is always null, unknown falls back to the npm-global command, and
the npm/bun/pnpm package spec is milaidy@latest on stable and
milaidy@\<distTag\> otherwise. -/
theorem C7_buildUpdateCommand_table :
    buildUpdateCommand .snap .nightly =
      some ("sudo", ["snap", "refresh", "milaidy", "--channel=edge"]) ∧
    buildUpdateCommand .snap .beta =
      some ("sudo", ["snap", "refresh", "milaidy", "--channel=beta"]) ∧
    buildUpdateCommand .snap .stable =
      some ("sudo", ["snap", "refresh", "milaidy", "--channel=stable"]) ∧
    (∀ ch, buildUpdateCommand .localDev ch = none) ∧
    (∀ ch, buildUpdateCommand .unknown ch = buildUpdateCommand .npmGlobal ch) ∧
    (∀ ch, buildUpdateCommand .npmGlobal ch =
      some ("npm", ["install", "-g",
        if ch = .stable then "milaidy@latest"
        else "milaidy@" ++ CHANNEL_DIST_TAGS ch])) ∧
    (∀ ch, buildUpdateCommand .bunGlobal ch =
      some ("bun", ["install", "-g",
        if ch = .stable then "milaidy@latest"
        else "milaidy@" ++ CHANNEL_DIST_TAGS ch])) ∧
    (∀ ch, buildUpdateCommand .pnpmGlobal ch =
      some ("pnpm", ["add", "-g",
        if ch = .stable then "milaidy@latest"
        else "milaidy@" ++ CHANNEL_DIST_TAGS ch])) ∧
    (∀ ch, buildUpdateCommand .homebrew ch = some ("brew", ["upgrade", "milaidy"])) ∧
    (∀ ch, buildUpdateCommand .apt ch = some ("sudo", ["apt-get", "update", "&&",
      "sudo", "apt-get", "install", "--only-upgrade", "milaidy"])) ∧
    (∀ ch, buildUpdateCommand .flatpak ch =
      some ("flatpak", ["update", "ai.milady.Milaidy"])) := by
  refine ⟨by decide, by decide, by decide, ?_, ?_, ?_, ?_, ?_, ?_, ?_, ?_⟩ <;>
    intro ch <;> cases ch <;> decide

/-- Branch characterization of `performUpdate` when a command was built:
the run's exit code selects between the failure and the success record. -/
theorem performUpdate_eq_of_cmd (cv : String) (ch : ReleaseChannel)
    (m : InstallMethod) (sp : SpawnOutcome) (vo : Option String)
    (cmd : String) (args : List String)
    (hcmd : buildUpdateCommand m ch = some (cmd, args)) :
    performUpdate cv ch m sp vo =
      (if (runCommand sp).1 ≠ 0 then
        { success := false
          method := m
          command := cmd ++ " " ++ String.intercalate " " args
          previousVersion := cv
          newVersion := none
          error := some (if (runCommand sp).2 ≠ "" then (runCommand sp).2
            else "Update command exited with code " ++
              toString (runCommand sp).1 ++ ".") }
      else
        { success := true
          method := m
          command := cmd ++ " " ++ String.intercalate " " args
          previousVersion := cv
          newVersion := readPostUpdateVersion vo
          error := none }) := by
  unfold performUpdate
  rw [hcmd]

/-- Branch characterization of `performUpdate` when no command was built
(local-dev installs). -/
theorem performUpdate_eq_of_no_cmd (cv : String) (ch : ReleaseChannel)
    (m : InstallMethod) (sp : SpawnOutcome) (vo : Option String)
    (hcmd : buildUpdateCommand m ch = none) :
    performUpdate cv ch m sp vo =
      { success := false
        method := m
        command := ""
        previousVersion := cv
        newVersion := none
        error := some (if m = .localDev then
            "Cannot auto-update a local development install. Use git pull instead."
          else
            "Unable to determine update command for this installation method.") } := by
  unfold performUpdate
  rw [hcmd]

/-- C8: a `performUpdate` run whose spawned command exits with code 0
returns success=true and error=null, and a failure to extract a version
from the re-invoked version subcommand yields newVersion=null without
flipping success; success=true never has a non-null error. -/
theorem C8_performUpdate_success_path (cv : String) (ch : ReleaseChannel)
    (m : InstallMethod) (sp : SpawnOutcome) (vo : Option String)
    (cmd : String) (args : List String)
    (hcmd : buildUpdateCommand m ch = some (cmd, args))
    (hexit : (runCommand sp).1 = 0) :
    (performUpdate cv ch m sp vo).success = true ∧
    (performUpdate cv ch m sp vo).error = none ∧
    (performUpdate cv ch m sp vo).newVersion = readPostUpdateVersion vo ∧
    (readPostUpdateVersion vo = none →
      (performUpdate cv ch m sp vo).newVersion = none ∧
      (performUpdate cv ch m sp vo).success = true) ∧
    (∀ (cv' : String) (ch' : ReleaseChannel) (m' : InstallMethod)
        (sp' : SpawnOutcome) (vo' : Option String),
      (performUpdate cv' ch' m' sp' vo').success = true →
      (performUpdate cv' ch' m' sp' vo').error = none) := by
  have h := performUpdate_eq_of_cmd cv ch m sp vo cmd args hcmd
  rw [if_neg (by simp [hexit])] at h
  refine ⟨by rw [h], by rw [h], by rw [h], fun hn => ⟨by rw [h]; exact hn, by rw [h]⟩, ?_⟩
  intro cv' ch' m' sp' vo' hs
  cases hb : buildUpdateCommand m' ch' with
  | none =>
      rw [performUpdate_eq_of_no_cmd cv' ch' m' sp' vo' hb] at hs
      simp at hs
  | some ci =>
      obtain ⟨c, a⟩ := ci
      have h0 := performUpdate_eq_of_cmd cv' ch' m' sp' vo' c a hb
      rw [h0] at hs ⊢
      by_cases he : (runCommand sp').1 ≠ 0
      · rw [if_pos he] at hs; simp at hs
      · rw [if_neg he]

/-- Closed instantiation of C8: exit code 0 with a version re-read that
yields nothing still reports success with a null error and version. -/
theorem C8_performUpdate_success_path_witness :
    (performUpdate "2.0.0" .stable .npmGlobal (.closed (some 0) "") none).success = true ∧
    (performUpdate "2.0.0" .stable .npmGlobal (.closed (some 0) "") none).error = none ∧
    (performUpdate "2.0.0" .stable .npmGlobal (.closed (some 0) "") none).newVersion = none := by
  have h := C8_performUpdate_success_path "2.0.0" .stable .npmGlobal
    (.closed (some 0) "") none "npm" ["install", "-g", "milaidy@latest"]
    (by decide) (by decide)
  exact ⟨h.1, h.2.1, (h.2.2.2.1 rfl).1⟩

/-- C9: a `performUpdate` run whose spawned command exits nonzero, exits
without a code (mapped to exit code 1), or fails at spawn time returns
success=false, newVersion=null, and a non-null error equal to the captured
stderr when non-empty and otherwise a generic exit-code message (or the
spawn error message). -/
theorem C9_performUpdate_failure_path (cv : String) (ch : ReleaseChannel)
    (m : InstallMethod) (vo : Option String) (cmd : String) (args : List String)
    (hcmd : buildUpdateCommand m ch = some (cmd, args)) :
    (∀ (c : Int) (st : String), c ≠ 0 →
      (performUpdate cv ch m (.closed (some c) st) vo).success = false ∧
      (performUpdate cv ch m (.closed (some c) st) vo).newVersion = none ∧
      (performUpdate cv ch m (.closed (some c) st) vo).error =
        some (if st ≠ "" then st
          else "Update command exited with code " ++ toString c ++ ".")) ∧
    (∀ st : String,
      (performUpdate cv ch m (.closed none st) vo).success = false ∧
      (performUpdate cv ch m (.closed none st) vo).newVersion = none ∧
      (performUpdate cv ch m (.closed none st) vo).error =
        some (if st ≠ "" then st
          else "Update command exited with code 1.")) ∧
    (∀ msg : String,
      (performUpdate cv ch m (.spawnErr msg) vo).success = false ∧
      (performUpdate cv ch m (.spawnErr msg) vo).newVersion = none ∧
      (performUpdate cv ch m (.spawnErr msg) vo).error =
        some (if msg ≠ "" then msg
          else "Update command exited with code 1.")) := by
  refine ⟨?_, ?_, ?_⟩
  · intro c st hc
    have h := performUpdate_eq_of_cmd cv ch m (.closed (some c) st) vo cmd args hcmd
    rw [if_pos (by simpa [runCommand] using hc)] at h
    exact ⟨by rw [h], by rw [h], by rw [h]; rfl⟩
  · intro st
    have h := performUpdate_eq_of_cmd cv ch m (.closed none st) vo cmd args hcmd
    rw [if_pos (by simp [runCommand])] at h
    exact ⟨by rw [h], by rw [h], by rw [h]; rfl⟩
  · intro msg
    have h := performUpdate_eq_of_cmd cv ch m (.spawnErr msg) vo cmd args hcmd
    rw [if_pos (by simp [runCommand])] at h
    exact ⟨by rw [h], by rw [h], by rw [h]; rfl⟩

/-- Branch characterization of `checkForUpdate`: the cache gate fires (not
forced, recent check) and the cached result is served with no fetch and no
save. -/
theorem checkForUpdate_cached_eq (version : String) (env : Option String)
    (dateParse : String → Option Int) (now : Int) (nowIso : String)
    (cfg : MilaidyConfig) (reg : RegistryOutcome) (saveOk : Bool)
    (hskip : shouldSkipCheck dateParse now cfg.update = true) :
    checkForUpdate version env dateParse now nowIso cfg false reg saveOk =
      { result :=
          { updateAvailable :=
              match cfg.update.bind (·.lastCheckVersion) with
              | some v => if v ≠ "" then ((compareSemver version v).getD 0) < 0 else false
              | none => false
            currentVersion := version
            latestVersion := cfg.update.bind (·.lastCheckVersion)
            channel := resolveChannel env cfg.update
            distTag := CHANNEL_DIST_TAGS (resolveChannel env cfg.update)
            cached := true
            error := none }
        savedConfig := none
        networkUsed := false
        saveSucceeded := none } := by
  simp only [checkForUpdate, hskip, Bool.not_false, Bool.true_and, if_true]

/-- Branch characterization of `checkForUpdate`: the gate is open and the
fetch yields nothing, giving the network-failure result with no save. -/
theorem checkForUpdate_netfail_eq (version : String) (env : Option String)
    (dateParse : String → Option Int) (now : Int) (nowIso : String)
    (cfg : MilaidyConfig) (force : Bool) (reg : RegistryOutcome) (saveOk : Bool)
    (hgate : (!force && shouldSkipCheck dateParse now cfg.update) = false)
    (hfetch : fetchDistTags reg = none) :
    checkForUpdate version env dateParse now nowIso cfg force reg saveOk =
      { result :=
          { updateAvailable := false
            currentVersion := version
            latestVersion := none
            channel := resolveChannel env cfg.update
            distTag := CHANNEL_DIST_TAGS (resolveChannel env cfg.update)
            cached := false
            error := some networkErrorMsg }
        savedConfig := none
        networkUsed := true
        saveSucceeded := none } := by
  simp only [checkForUpdate, hgate, hfetch, Bool.false_eq_true, if_false]

/-- Branch characterization of `checkForUpdate`: the gate is open, the fetch
succeeds, but the resolved dist-tag is absent from the map, giving the
channel-not-published result with no save. -/
theorem checkForUpdate_notag_eq (version : String) (env : Option String)
    (dateParse : String → Option Int) (now : Int) (nowIso : String)
    (cfg : MilaidyConfig) (force : Bool) (reg : RegistryOutcome) (saveOk : Bool)
    (tags : List (String × String))
    (hgate : (!force && shouldSkipCheck dateParse now cfg.update) = false)
    (hfetch : fetchDistTags reg = some tags)
    (hmiss : jsLookup tags (CHANNEL_DIST_TAGS (resolveChannel env cfg.update)) = none) :
    checkForUpdate version env dateParse now nowIso cfg force reg saveOk =
      { result :=
          { updateAvailable := false
            currentVersion := version
            latestVersion := none
            channel := resolveChannel env cfg.update
            distTag := CHANNEL_DIST_TAGS (resolveChannel env cfg.update)
            cached := false
            error := some (noVersionErrorMsg
              (CHANNEL_DIST_TAGS (resolveChannel env cfg.update))
              (resolveChannel env cfg.update)) }
        savedConfig := none
        networkUsed := true
        saveSucceeded := none } := by
  simp only [checkForUpdate, hgate, hfetch, hmiss, Bool.false_eq_true, if_false]

/-- Branch characterization of `checkForUpdate`: the gate is open, the fetch
succeeds, and the resolved dist-tag maps to a non-empty version, so the
check compares versions and persists the merged check metadata. -/
theorem checkForUpdate_success_eq (version : String) (env : Option String)
    (dateParse : String → Option Int) (now : Int) (nowIso : String)
    (cfg : MilaidyConfig) (force : Bool) (reg : RegistryOutcome) (saveOk : Bool)
    (tags : List (String × String)) (v : String)
    (hgate : (!force && shouldSkipCheck dateParse now cfg.update) = false)
    (hfetch : fetchDistTags reg = some tags)
    (hv : jsLookup tags (CHANNEL_DIST_TAGS (resolveChannel env cfg.update)) = some v)
    (hne : v ≠ "") :
    checkForUpdate version env dateParse now nowIso cfg force reg saveOk =
      { result :=
          { updateAvailable :=
              match compareSemver version v with
              | none => false
              | some c => c < 0
            currentVersion := version
            latestVersion := some v
            channel := resolveChannel env cfg.update
            distTag := CHANNEL_DIST_TAGS (resolveChannel env cfg.update)
            cached := false
            error := none }
        savedConfig := some { cfg with
          update := some {
            channel := cfg.update.bind (·.channel)
            checkIntervalSeconds := cfg.update.bind (·.checkIntervalSeconds)
            lastCheckAt := some nowIso
            lastCheckVersion := some v } }
        networkUsed := true
        saveSucceeded := some saveOk } := by
  simp only [checkForUpdate, hgate, hfetch, hv, hne, Bool.false_eq_true, if_false]

/-- Closed instantiation of C9: a nonzero exit with captured stderr reports
failure carrying the stderr text; an empty-stderr spawn failure carries the
generic exit-code message. -/
theorem C9_performUpdate_failure_path_witness :
    (performUpdate "2.0.0" .stable .npmGlobal (.closed (some 7) "boom") none).success = false ∧
    (performUpdate "2.0.0" .stable .npmGlobal (.closed (some 7) "boom") none).error = some "boom" ∧
    (performUpdate "2.0.0" .stable .npmGlobal (.spawnErr "") none).error =
      some "Update command exited with code 1." := by
  have h := C9_performUpdate_failure_path "2.0.0" .stable .npmGlobal none
    "npm" ["install", "-g", "milaidy@latest"] (by decide)
  refine ⟨(h.1 7 "boom" (by decide)).1, ?_, ?_⟩
  · have := (h.1 7 "boom" (by decide)).2.2
    simpa using this
  · have := (h.2.2 "").2.2
    simpa using this

/-- The gate being open (forced, or no recent check) sends `checkForUpdate`
to the registry: every non-cached branch fetches and reports cached=false. -/
theorem checkForUpdate_gate_open (version : String) (env : Option String)
    (dateParse : String → Option Int) (now : Int) (nowIso : String)
    (cfg : MilaidyConfig) (force : Bool) (reg : RegistryOutcome) (saveOk : Bool)
    (hgate : (!force && shouldSkipCheck dateParse now cfg.update) = false) :
    (checkForUpdate version env dateParse now nowIso cfg force reg saveOk).networkUsed = true ∧
    (checkForUpdate version env dateParse now nowIso cfg force reg saveOk).result.cached = false := by
  simp only [checkForUpdate, hgate, Bool.false_eq_true, if_false]
  rcases hfd : fetchDistTags reg with _ | tags
  · simp
  · rcases hjl : jsLookup tags (CHANNEL_DIST_TAGS (resolveChannel env cfg.update)) with _ | v
    · simp [hjl]
    · by_cases hv : v = "" <;> simp [hjl, hv]

/-- C1: with force=false and a config whose `lastCheckAt` parses and is
younger than `checkIntervalSeconds` (default 14400 when unset),
`checkForUpdate` performs no network fetch, persists nothing, and returns
cached=true with updateAvailable true iff comparing the running version
against the cached `lastCheckVersion` is strictly negative (a null
comparison or absent `lastCheckVersion` meaning no update). -/
theorem C1_cache_gate_no_fetch (version : String) (env : Option String)
    (dateParse : String → Option Int) (now : Int) (nowIso : String)
    (cfg : MilaidyConfig) (reg : RegistryOutcome) (saveOk : Bool)
    (uc : UpdateConfig) (s : String) (t : Int)
    (hu : cfg.update = some uc) (hs : uc.lastCheckAt = some s) (hne : s ≠ "")
    (ht : dateParse s = some t)
    (hage : now - t <
      (uc.checkIntervalSeconds.getD DEFAULT_CHECK_INTERVAL_SECONDS) * 1000) :
    DEFAULT_CHECK_INTERVAL_SECONDS = 14400 ∧
    (checkForUpdate version env dateParse now nowIso cfg false reg saveOk).networkUsed = false ∧
    (checkForUpdate version env dateParse now nowIso cfg false reg saveOk).result.cached = true ∧
    (checkForUpdate version env dateParse now nowIso cfg false reg saveOk).savedConfig = none ∧
    ((checkForUpdate version env dateParse now nowIso cfg false reg saveOk).result.updateAvailable = true ↔
      ∃ v c, uc.lastCheckVersion = some v ∧ compareSemver version v = some c ∧ c < 0) := by
  have hskip : shouldSkipCheck dateParse now cfg.update = true := by
    rw [hu]
    simp [shouldSkipCheck, hs, hne, ht, hage]
  have h := checkForUpdate_cached_eq version env dateParse now nowIso cfg reg saveOk hskip
  rw [h, hu]
  refine ⟨rfl, rfl, rfl, rfl, ?_⟩
  cases hv : uc.lastCheckVersion with
  | none => simp [hv]
  | some v =>
      by_cases hvv : v = ""
      · subst hvv
        simp [hv, compareSemver_right_empty]
      · cases hc : compareSemver version v with
        | none => simp [hv, hvv, hc]
        | some c => simp [hv, hvv, hc]

/-- Closed instantiation of C1: a fresh check with a newer cached version
serves a cached update-available result without fetching. -/
theorem C1_cache_gate_no_fetch_witness :
    (checkForUpdate "2.0.0-alpha.7" none (fun _ => some 0) 0 "ISO"
      { update := some {
          lastCheckAt := some "T"
          lastCheckVersion := some "2.1.0"
          checkIntervalSeconds := some 3600 } } false .transportError true).networkUsed = false ∧
    (checkForUpdate "2.0.0-alpha.7" none (fun _ => some 0) 0 "ISO"
      { update := some {
          lastCheckAt := some "T"
          lastCheckVersion := some "2.1.0"
          checkIntervalSeconds := some 3600 } } false .transportError true).result.cached = true ∧
    (checkForUpdate "2.0.0-alpha.7" none (fun _ => some 0) 0 "ISO"
      { update := some {
          lastCheckAt := some "T"
          lastCheckVersion := some "2.1.0"
          checkIntervalSeconds := some 3600 } } false .transportError true).result.updateAvailable = true := by
  have h := C1_cache_gate_no_fetch "2.0.0-alpha.7" none (fun _ => some 0) 0 "ISO"
    { update := some {
        lastCheckAt := some "T"
        lastCheckVersion := some "2.1.0"
        checkIntervalSeconds := some 3600 } } .transportError true
    { lastCheckAt := some "T"
      lastCheckVersion := some "2.1.0"
      checkIntervalSeconds := some 3600 } "T" 0
    rfl rfl (by decide) rfl (by decide)
  exact ⟨h.2.1, h.2.2.1, h.2.2.2.2.mpr ⟨"2.1.0", -1, rfl, by decide, by decide⟩⟩

/-- C2: every check that reaches the registry and finds a version under the
resolved dist-tag reports updateAvailable true iff current < latest, and
unconditionally persists lastCheckAt=now, lastCheckVersion=latest merged
into the existing config with unrelated fields kept; a save failure does
not change the returned result. -/
theorem C2_success_path_persists (version : String) (env : Option String)
    (dateParse : String → Option Int) (now : Int) (nowIso : String)
    (cfg : MilaidyConfig) (force : Bool) (reg : RegistryOutcome) (saveOk : Bool)
    (tags : List (String × String)) (v : String)
    (hgate : (!force && shouldSkipCheck dateParse now cfg.update) = false)
    (hfetch : fetchDistTags reg = some tags)
    (hv : jsLookup tags (CHANNEL_DIST_TAGS (resolveChannel env cfg.update)) = some v)
    (hne : v ≠ "") :
    ((checkForUpdate version env dateParse now nowIso cfg force reg saveOk).result.updateAvailable = true ↔
      ∃ c, compareSemver version v = some c ∧ c < 0) ∧
    (checkForUpdate version env dateParse now nowIso cfg force reg saveOk).result.latestVersion = some v ∧
    (checkForUpdate version env dateParse now nowIso cfg force reg saveOk).savedConfig =
      some { cfg with
        update := some {
          channel := cfg.update.bind (·.channel)
          checkIntervalSeconds := cfg.update.bind (·.checkIntervalSeconds)
          lastCheckAt := some nowIso
          lastCheckVersion := some v } } ∧
    (checkForUpdate version env dateParse now nowIso cfg force reg true).result =
      (checkForUpdate version env dateParse now nowIso cfg force reg false).result := by
  have h := checkForUpdate_success_eq version env dateParse now nowIso cfg force
    reg saveOk tags v hgate hfetch hv hne
  have htrue := checkForUpdate_success_eq version env dateParse now nowIso cfg force
    reg true tags v hgate hfetch hv hne
  have hfalse := checkForUpdate_success_eq version env dateParse now nowIso cfg force
    reg false tags v hgate hfetch hv hne
  refine ⟨?_, by rw [h], by rw [h], by rw [htrue, hfalse]⟩
  rw [h]
  cases hc : compareSemver version v with
  | none => simp [hc]
  | some c => simp [hc]

/-- Closed instantiation of C2: a beta-channel check finding 2.1.0-beta.3
over 2.0.0-alpha.7 reports an update and persists the merged metadata. -/
theorem C2_success_path_persists_witness :
    (checkForUpdate "2.0.0-alpha.7" none (fun _ => none) 0 "ISO"
      { update := some { channel := some .beta } } true
      (.response true (some (some [("beta", "2.1.0-beta.3")]))) true).result.updateAvailable = true ∧
    (checkForUpdate "2.0.0-alpha.7" none (fun _ => none) 0 "ISO"
      { update := some { channel := some .beta } } true
      (.response true (some (some [("beta", "2.1.0-beta.3")]))) true).savedConfig =
      some {
        update := some {
          channel := some .beta
          lastCheckAt := some "ISO"
          lastCheckVersion := some "2.1.0-beta.3"
          checkIntervalSeconds := none }
        rest := [] } := by
  have h := C2_success_path_persists "2.0.0-alpha.7" none (fun _ => none) 0 "ISO"
    { update := some { channel := some .beta } } true
    (.response true (some (some [("beta", "2.1.0-beta.3")]))) true
    [("beta", "2.1.0-beta.3")] "2.1.0-beta.3" rfl rfl (by decide) (by decide)
  exact ⟨h.1.mpr ⟨-1, by decide, by decide⟩, h.2.2.1.trans (by decide)⟩

/-- C3: the registry client times out after 8000 ms, and every failure mode
(timeout, transport error, non-2xx response, malformed JSON body) makes
`fetchDistTags` return null without raising; `checkForUpdate` then returns
updateAvailable=false, latestVersion=null, cached=false and the descriptive
network-failure error, leaving the persisted config untouched. -/
theorem C3_network_failure_handling :
    REGISTRY_TIMEOUT_MS = 8000 ∧
    fetchDistTags .timeout = none ∧
    fetchDistTags .transportError = none ∧
    (∀ body, fetchDistTags (.response false body) = none) ∧
    (∀ ok, fetchDistTags (.response ok none) = none) ∧
    (∀ (version : String) (env : Option String) (dateParse : String → Option Int)
      (now : Int) (nowIso : String) (cfg : MilaidyConfig) (force : Bool)
      (reg : RegistryOutcome) (saveOk : Bool),
      (!force && shouldSkipCheck dateParse now cfg.update) = false →
      fetchDistTags reg = none →
      (checkForUpdate version env dateParse now nowIso cfg force reg saveOk).result.updateAvailable = false ∧
      (checkForUpdate version env dateParse now nowIso cfg force reg saveOk).result.latestVersion = none ∧
      (checkForUpdate version env dateParse now nowIso cfg force reg saveOk).result.cached = false ∧
      (checkForUpdate version env dateParse now nowIso cfg force reg saveOk).result.error =
        some networkErrorMsg ∧
      (checkForUpdate version env dateParse now nowIso cfg force reg saveOk).savedConfig = none) := by
  refine ⟨rfl, rfl, rfl, ?_, ?_, ?_⟩
  · intro body; cases body <;> rfl
  · intro ok; cases ok <;> rfl
  · intro version env dateParse now nowIso cfg force reg saveOk hgate hfetch
    have h := checkForUpdate_netfail_eq version env dateParse now nowIso cfg force
      reg saveOk hgate hfetch
    exact ⟨by rw [h], by rw [h], by rw [h], by rw [h], by rw [h]⟩

/-- Closed instantiation of C3: a timed-out fetch yields the network-failure
result with no save. -/
theorem C3_network_failure_handling_witness :
    (checkForUpdate "2.0.0" none (fun _ => none) 0 "ISO" {} true .timeout true).result.error =
      some networkErrorMsg ∧
    (checkForUpdate "2.0.0" none (fun _ => none) 0 "ISO" {} true .timeout true).savedConfig =
      none := by
  have h := C3_network_failure_handling.2.2.2.2.2 "2.0.0" none (fun _ => none)
    0 "ISO" {} true .timeout true rfl rfl
  exact ⟨h.2.2.2.1, h.2.2.2.2⟩

/-- C4: when the fetched dist-tags map has no entry for the resolved
channel's tag, the result is updateAvailable=false, latestVersion=null,
with an error naming the channel and stating it has no published releases,
and no config write happens in this branch. -/
theorem C4_missing_dist_tag (version : String) (env : Option String)
    (dateParse : String → Option Int) (now : Int) (nowIso : String)
    (cfg : MilaidyConfig) (force : Bool) (reg : RegistryOutcome) (saveOk : Bool)
    (tags : List (String × String))
    (hgate : (!force && shouldSkipCheck dateParse now cfg.update) = false)
    (hfetch : fetchDistTags reg = some tags)
    (hmiss : jsLookup tags (CHANNEL_DIST_TAGS (resolveChannel env cfg.update)) = none) :
    (checkForUpdate version env dateParse now nowIso cfg force reg saveOk).result.updateAvailable = false ∧
    (checkForUpdate version env dateParse now nowIso cfg force reg saveOk).result.latestVersion = none ∧
    (checkForUpdate version env dateParse now nowIso cfg force reg saveOk).result.error =
      some (noVersionErrorMsg (CHANNEL_DIST_TAGS (resolveChannel env cfg.update))
        (resolveChannel env cfg.update)) ∧
    strContains (noVersionErrorMsg (CHANNEL_DIST_TAGS (resolveChannel env cfg.update))
      (resolveChannel env cfg.update)) (resolveChannel env cfg.update).name = true ∧
    strContains (noVersionErrorMsg (CHANNEL_DIST_TAGS (resolveChannel env cfg.update))
      (resolveChannel env cfg.update)) "not have any published releases" = true ∧
    (checkForUpdate version env dateParse now nowIso cfg force reg saveOk).savedConfig = none := by
  have h := checkForUpdate_notag_eq version env dateParse now nowIso cfg force
    reg saveOk tags hgate hfetch hmiss
  refine ⟨by rw [h], by rw [h], by rw [h], ?_, ?_, by rw [h]⟩ <;>
    cases resolveChannel env cfg.update <;> decide

/-- Closed instantiation of C4: a dist-tags response missing the nightly
key, with channel nightly, names the channel in the error. -/
theorem C4_missing_dist_tag_witness :
    (checkForUpdate "2.0.0-alpha.7" none (fun _ => none) 0 "ISO"
      { update := some { channel := some .nightly } } true
      (.response true (some (some [("latest", "2.0.0")]))) true).result.updateAvailable = false ∧
    (checkForUpdate "2.0.0-alpha.7" none (fun _ => none) 0 "ISO"
      { update := some { channel := some .nightly } } true
      (.response true (some (some [("latest", "2.0.0")]))) true).result.error =
      some "No version found for dist-tag \x22nightly\x22. The \x22nightly\x22 channel may not have any published releases yet." := by
  have h := C4_missing_dist_tag "2.0.0-alpha.7" none (fun _ => none) 0 "ISO"
    { update := some { channel := some .nightly } } true
    (.response true (some (some [("latest", "2.0.0")]))) true
    [("latest", "2.0.0")] rfl rfl (by decide)
  exact ⟨h.1, h.2.2.1.trans (by decide)⟩

/-- C10: a `lastCheckAt` that does not parse as a timestamp (NaN epoch)
never fires the cache gate, whatever `checkIntervalSeconds` says, so an
unforced `checkForUpdate` proceeds to the network fetch instead of serving
a stale cached result. -/
theorem C10_unparseable_lastCheckAt_skips_gate (version : String)
    (env : Option String) (dateParse : String → Option Int) (now : Int)
    (nowIso : String) (cfg : MilaidyConfig) (reg : RegistryOutcome)
    (saveOk : Bool) (uc : UpdateConfig) (s : String)
    (hu : cfg.update = some uc) (hs : uc.lastCheckAt = some s)
    (ht : dateParse s = none) :
    shouldSkipCheck dateParse now cfg.update = false ∧
    (checkForUpdate version env dateParse now nowIso cfg false reg saveOk).networkUsed = true ∧
    (checkForUpdate version env dateParse now nowIso cfg false reg saveOk).result.cached = false := by
  have hskip : shouldSkipCheck dateParse now cfg.update = false := by
    rw [hu]
    by_cases hes : s = ""
    · simp [shouldSkipCheck, hs, hes]
    · simp [shouldSkipCheck, hs, hes, ht]
  have h := checkForUpdate_gate_open version env dateParse now nowIso cfg false
    reg saveOk (by simp [hskip])
  exact ⟨hskip, h.1, h.2⟩

/-- Closed instantiation of C10: an unparseable timestamp with a huge
interval still reaches the network. -/
theorem C10_unparseable_lastCheckAt_skips_gate_witness :
    shouldSkipCheck (fun _ => none) 0
      (some {
        lastCheckAt := some "not-a-date"
        checkIntervalSeconds := some 999999999 }) = false ∧
    (checkForUpdate "2.0.0" none (fun _ => none) 0 "ISO"
      { update := some {
          lastCheckAt := some "not-a-date"
          checkIntervalSeconds := some 999999999 } } false .timeout true).networkUsed = true := by
  have h := C10_unparseable_lastCheckAt_skips_gate "2.0.0" none (fun _ => none)
    0 "ISO"
    { update := some {
        lastCheckAt := some "not-a-date"
        checkIntervalSeconds := some 999999999 } } .timeout true
    { lastCheckAt := some "not-a-date"
      checkIntervalSeconds := some 999999999 }
    "not-a-date" rfl rfl rfl
  exact ⟨h.1, h.2.1⟩

end Milaidy
